import Mathlib

/-!
Verification of the connection-lifecycle and health-aggregation shim
(`src/app.py`): a shallow embedding of the Redis/PostgreSQL handle
initialization with bounded retry, and of the five request handlers
(`cache_get`, `cache_set`, `db_test`, `health_check`, `root`).

External calls (a Redis `ping`/`get`/`set`, a PostgreSQL query) are modelled
by an outcome parameter: the call either returns normally, raises an
exception of the classes the surrounding `except` clause catches
(connectivity-class: `ConnectionError`/`RedisError` for Redis,
`OperationalError` for PostgreSQL), or raises any other exception.
The external Redis store is modelled, as the spec describes it, as a map
from string keys to string values with unconditional overwrite on `set`.
-/

namespace Shim

/-- Outcome of one external client call: it returns normally, raises an
exception of the classes the handler's `except` clause catches
(connectivity-class), or raises any other exception. -/
inductive NetOutcome where
  | ok
  | connErr (msg : String)
  | otherErr (msg : String)
deriving DecidableEq

/-- Whether the outcome is an exception of the caught (connectivity) classes. -/
def NetOutcome.isConnErr : NetOutcome → Bool
  | .connErr _ => true
  | _ => false

/-- Result of one HTTP handler invocation: a 200 body, a raised
`HTTPException(status_code, detail)`, or an uncaught exception propagating
out of the handler. -/
inductive HttpResult (α : Type) where
  | ok (body : α)
  | httpError (status : Nat) (detail : String)
  | raised (msg : String)
deriving DecidableEq

/-- The external Redis store contents: string keys to string values
(`decode_responses=True`), owned by the external store. -/
def RedisStore : Type := String → Option String

/-- The store with no keys written. -/
def emptyStore : RedisStore := fun _ => none

/-- Redis `SET key value`: unconditional overwrite, no TTL. -/
def redis_set (store : RedisStore) (key value : String) : RedisStore :=
  fun q => if q = key then some value else store q

/-- Body of a successful `GET /cache/{key}` (written `/cache/\x7bkey\x7d`). -/
structure CacheGetBody where
  key : String
  value : String
deriving DecidableEq

/-- Body of a successful `POST /cache/{key}/{value}`. -/
structure CacheSetBody where
  status : String
  key : String
  value : String
deriving DecidableEq

/-- Body of a successful `GET /db`. -/
structure DbBody where
  postgres_version : String
  status : String
deriving DecidableEq

/-- Body of `GET /health`. -/
structure HealthBody where
  status : String
  redis : String
  postgresql : String
  redis_host : String
  postgres_host : String
deriving DecidableEq

/-- The `services` object of the root payload. -/
structure Services where
  redis : String
  postgresql : String
deriving DecidableEq

/-- The `endpoints` object of the root payload. -/
structure Endpoints where
  health_check : String
  cache_get : String
  cache_set : String
  db_test : String
deriving DecidableEq

/-- Body of `GET /`. -/
structure RootBody where
  message : String
  services : Services
  endpoints : Endpoints
deriving DecidableEq

/-- Handler for `GET /cache/{key}` (`cache_get` in `src/app.py`).
`r` is the module-level Redis handle (`None` if startup acquisition failed),
`store` the external store contents, `net` the outcome of the `r.get(key)`
call. The 404 `HTTPException` is raised inside the `try` block but is not a
`RedisError`, so the `except` clause does not catch it. -/
def cache_get (r : Option Unit) (store : RedisStore) (net : NetOutcome)
    (key : String) : HttpResult CacheGetBody :=
  match r with
  | none => .httpError 503 "Redis service unavailable"
  | some _ =>
    match net with
    | .ok =>
      match store key with
      | none => .httpError 404 ("Key \x27" ++ key ++ "\x27 not found")
      | some val => .ok { key := key, value := val }
    | .connErr e => .httpError 503 ("Redis error: " ++ e)
    | .otherErr e => .raised e

/-- Handler for `POST /cache/{key}/{value}` (`cache_set` in `src/app.py`).
Returns the HTTP result together with the store contents after the call
(unchanged unless the `r.set` call returned normally). -/
def cache_set (r : Option Unit) (store : RedisStore) (net : NetOutcome)
    (key value : String) : HttpResult CacheSetBody × RedisStore :=
  match r with
  | none => (.httpError 503 "Redis service unavailable", store)
  | some _ =>
    match net with
    | .ok => (.ok { status := "ok", key := key, value := value },
              redis_set store key value)
    | .connErr e => (.httpError 503 ("Redis error: " ++ e), store)
    | .otherErr e => (.raised e, store)

/-- Handler for `GET /db` (`db_test` in `src/app.py`). `pg` is the
module-level connection handle, `version` the string the external
PostgreSQL server answers to `SELECT version();`, `net` the outcome of the
query round-trip. -/
def db_test (pg : Option Unit) (version : String) (net : NetOutcome) :
    HttpResult DbBody :=
  match pg with
  | none => .httpError 503 "PostgreSQL service unavailable"
  | some _ =>
    match net with
    | .ok => .ok { postgres_version := version, status := "success" }
    | .connErr e => .httpError 503 ("PostgreSQL error: " ++ e)
    | .otherErr e => .raised e

/-- A re-check call issued by the health handler to an external dependency. -/
inductive Probe where
  | redisPing
  | pgQuery
deriving DecidableEq

/-- One `if handle: try: probe; status = "healthy" except: status =
"unhealthy"` block of `health_check` in `src/app.py`: the status starts
`"unhealthy"`, is re-checked only when the handle is truthy, and the bare
`except:` swallows every exception kind. -/
def depStatus (handle : Option Unit) (net : NetOutcome) : String :=
  match handle with
  | none => "unhealthy"
  | some _ =>
    match net with
    | .ok => "healthy"
    | _ => "unhealthy"

/-- Handler for `GET /health` (`health_check` in `src/app.py`). Returns
the HTTP result together with the list of re-check calls issued: the ping
only when `r` is truthy, the `SELECT 1;` query only when `pg_conn` is. -/
def health_check (r pg : Option Unit) (pingNet queryNet : NetOutcome)
    (redis_host postgres_host : String) : HttpResult HealthBody × List Probe :=
  let redis_status := depStatus r pingNet
  let postgres_status := depStatus pg queryNet
  let probes :=
    (match r with
     | some _ => [Probe.redisPing]
     | none => []) ++
    (match pg with
     | some _ => [Probe.pgQuery]
     | none => [])
  (.ok { status := if redis_status = "healthy" ∧ postgres_status = "healthy"
                   then "healthy" else "degraded",
         redis := redis_status,
         postgresql := postgres_status,
         redis_host := redis_host,
         postgres_host := postgres_host }, probes)

/-- Handler for `GET /` (`root` in `src/app.py`). -/
def root (r pg : Option Unit) : HttpResult RootBody :=
  .ok { message := "Hello from Bootcamp Day 3",
        services := { redis := match r with
                               | some _ => "available"
                               | none => "unavailable",
                      postgresql := match pg with
                                    | some _ => "available"
                                    | none => "unavailable" },
        endpoints := { health_check := "/health",
                       cache_get := "/cache/\x7bkey\x7d",
                       cache_set := "/cache/\x7bkey\x7d/\x7bvalue\x7d",
                       db_test := "/db" } }

/-- An action the initialization loop performs: a connect-and-verify
attempt (with its 0-based index) or a `time.sleep(seconds)`. -/
inductive InitStep where
  | tryConnect (attempt : Nat)
  | sleep (seconds : Nat)
deriving DecidableEq

/-- How initialization ends: a live handle, the `None` sentinel after
exhausting retries, or an uncaught exception propagating out. -/
inductive InitOutcome where
  | handle
  | unavailable
  | raised (msg : String)
deriving DecidableEq

/-- The `for attempt in range(max_retries)` loop shared by `init_redis` and
`init_postgres` in `src/app.py`. `oracle i` is the outcome of the
connect-and-verify round-trip on attempt `i`; `fuel` is the number of loop
iterations left (`max_retries - attempt` at every call). A caught
(connectivity-class) failure on an attempt with `attempt < max_retries - 1`
logs a warning and sleeps 2 seconds before retrying; on the final attempt it
returns `None` without sleeping; an uncaught exception propagates at once.
Returns the outcome and the trace of attempts and sleeps. -/
def init_loop (oracle : Nat → NetOutcome) (max_retries : Nat) :
    Nat → Nat → InitOutcome × List InitStep
  | fuel + 1, attempt =>
    match oracle attempt with
    | .ok => (.handle, [.tryConnect attempt])
    | .connErr _ =>
      if attempt < max_retries - 1 then
        let rest := init_loop oracle max_retries fuel (attempt + 1)
        (rest.1, .tryConnect attempt :: .sleep 2 :: rest.2)
      else
        (.unavailable, [.tryConnect attempt])
    | .otherErr m => (.raised m, [.tryConnect attempt])
  | 0, _ => (.unavailable, [])

/-- `init_redis` in `src/app.py`: `max_retries = 10`, `retry_delay = 2`. -/
def init_redis (oracle : Nat → NetOutcome) : InitOutcome × List InitStep :=
  init_loop oracle 10 10 0

/-- `init_postgres` in `src/app.py`: same loop, `max_retries = 10`,
`retry_delay = 2`; only the external call (and its caught exception class)
differs, which the oracle abstracts. -/
def init_postgres (oracle : Nat → NetOutcome) : InitOutcome × List InitStep :=
  init_loop oracle 10 10 0

/-- The trace the loop leaves when every attempt it reaches fails with a
caught connectivity-class error, starting at `attempt` with `fuel`
iterations left. -/
def failTrace (max_retries : Nat) : Nat → Nat → List InitStep
  | fuel + 1, attempt =>
    if attempt < max_retries - 1 then
      .tryConnect attempt :: .sleep 2 :: failTrace max_retries fuel (attempt + 1)
    else
      [.tryConnect attempt]
  | 0, _ => []

/-- Auxiliary for `okTrace`: the trace from `attempt` (with
`fuel = k - attempt`) when attempts before `k` fail with caught errors and
the loop stops at attempt `k`. -/
def okTraceAux (k : Nat) : Nat → Nat → List InitStep
  | fuel + 1, attempt =>
    if attempt < k then
      .tryConnect attempt :: .sleep 2 :: okTraceAux k fuel (attempt + 1)
    else
      [.tryConnect attempt]
  | 0, attempt => [.tryConnect attempt]

/-- The trace when attempts `0..k-1` fail with caught connectivity-class
errors and the loop stops at attempt `k` (success or uncaught exception). -/
def okTrace (k : Nat) : List InitStep := okTraceAux k k 0

/-- Number of connect-and-verify attempts in a trace. -/
def countTries : List InitStep → Nat
  | [] => 0
  | .tryConnect _ :: rest => countTries rest + 1
  | .sleep _ :: rest => countTries rest

/-- Number of sleeps in a trace. -/
def countSleeps : List InitStep → Nat
  | [] => 0
  | .tryConnect _ :: rest => countSleeps rest
  | .sleep _ :: rest => countSleeps rest + 1

/-- How the loop ends on the attempt it stops at: `none` when the outcome
is a caught connectivity-class error (the loop continues past it). -/
def finalOutcome : NetOutcome → Option InitOutcome
  | .ok => some .handle
  | .connErr _ => none
  | .otherErr m => some (.raised m)

/-- Process-wide state: the two handles assigned once at startup
(`r = init_redis()`, `pg_conn = init_postgres()` at module level) and the
external stores the handlers talk to. -/
structure AppState where
  r : Option Unit
  pg : Option Unit
  store : RedisStore
  version : String

/-- One incoming HTTP request, with the outcomes of the external calls the
handler will make. -/
inductive Request where
  | getReq (key : String) (net : NetOutcome)
  | setReq (key value : String) (net : NetOutcome)
  | dbReq (net : NetOutcome)
  | healthReq (pingNet queryNet : NetOutcome)
  | rootReq

/-- Serve one request: only `cache_set` changes any process-visible state,
and it changes only the external store contents; no handler assigns to the
module-level handles. -/
def stepRequest (s : AppState) : Request → AppState
  | .setReq key value net =>
    { s with store := (cache_set s.r s.store net key value).2 }
  | .getReq _ _ => s
  | .dbReq _ => s
  | .healthReq _ _ => s
  | .rootReq => s

/-- Serve a sequence of requests. -/
def runRequests (s : AppState) : List Request → AppState
  | [] => s
  | req :: rest => runRequests (stepRequest s req) rest

/-- Module import in `src/app.py`: `r = init_redis()` then
`pg_conn = init_postgres()`, each exactly once, before any request is
served. If either initialization lets an exception propagate, the process
dies before serving (`none`). -/
def startup (redisOracle pgOracle : Nat → NetOutcome) (store : RedisStore)
    (version : String) : Option AppState :=
  match (init_redis redisOracle).1, (init_postgres pgOracle).1 with
  | .raised _, _ => none
  | _, .raised _ => none
  | a, b =>
    some { r := match a with
               | .handle => some ()
               | _ => none,
           pg := match b with
                 | .handle => some ()
                 | _ => none,
           store := store,
           version := version }

/-- A per-dependency sub-status is always `healthy` or `unhealthy`. -/
lemma depStatus_cases (handle : Option Unit) (net : NetOutcome) :
    depStatus handle net = "healthy" ∨ depStatus handle net = "unhealthy" := by
  cases handle <;> cases net <;> first | exact Or.inl rfl | exact Or.inr rfl

/-- The aggregate expression of `health_check` equals `"healthy"` exactly
when both sub-statuses are `"healthy"`. -/
lemma agg_healthy_iff (rs ps : String) :
    ((if rs = "healthy" ∧ ps = "healthy" then "healthy" else "degraded")
      = "healthy") ↔ (rs = "healthy" ∧ ps = "healthy") := by
  split
  · case isTrue h => exact iff_of_true rfl h
  · case isFalse h => exact iff_of_false (by decide) h

/-- The aggregate expression of `health_check` equals `"degraded"` exactly
when not both sub-statuses are `"healthy"`. -/
lemma agg_degraded_iff (rs ps : String) :
    ((if rs = "healthy" ∧ ps = "healthy" then "healthy" else "degraded")
      = "degraded") ↔ ¬(rs = "healthy" ∧ ps = "healthy") := by
  split
  · case isTrue h => exact iff_of_false (by decide) (not_not_intro h)
  · case isFalse h => exact iff_of_true rfl h

/-- The loop performs at most `fuel` connect-and-verify attempts. -/
lemma countTries_init_loop (oracle : Nat → NetOutcome) (max_retries : Nat) :
    ∀ fuel attempt,
      countTries (init_loop oracle max_retries fuel attempt).2 ≤ fuel := by
  intro fuel
  induction fuel with
  | zero =>
    intro attempt
    simp [init_loop, countTries]
  | succ n ih =>
    intro attempt
    simp only [init_loop]
    cases ho : oracle attempt with
    | ok => simp [countTries]
    | connErr m =>
      by_cases hlt : attempt < max_retries - 1
      · rw [if_pos hlt]
        simp only [countTries]
        have := ih (attempt + 1)
        omega
      · rw [if_neg hlt]
        simp [countTries]
    | otherErr m => simp [countTries]

/-- Every sleep the loop performs is the fixed 2-second delay. -/
lemma init_loop_sleep_two (oracle : Nat → NetOutcome) (max_retries : Nat) :
    ∀ fuel attempt d,
      InitStep.sleep d ∈ (init_loop oracle max_retries fuel attempt).2 →
      d = 2 := by
  intro fuel
  induction fuel with
  | zero =>
    intro attempt d hd
    simp [init_loop] at hd
  | succ n ih =>
    intro attempt d hd
    simp only [init_loop] at hd
    cases ho : oracle attempt <;> rw [ho] at hd
    · simp at hd
    · by_cases hlt : attempt < max_retries - 1
      · rw [if_pos hlt] at hd
        simp only [List.mem_cons] at hd
        rcases hd with h | h | h
        · cases h
        · cases h; rfl
        · exact ih (attempt + 1) d h
      · rw [if_neg hlt] at hd
        simp at hd
    · simp at hd

/-- When every attempt the loop can reach fails with a caught
connectivity-class error, it returns the sentinel and leaves the
all-failures trace. -/
lemma init_loop_all_fail (oracle : Nat → NetOutcome) (max_retries : Nat)
    (hfail : ∀ i, i < max_retries → (oracle i).isConnErr = true) :
    ∀ fuel attempt, attempt + fuel = max_retries →
      init_loop oracle max_retries fuel attempt =
        (InitOutcome.unavailable, failTrace max_retries fuel attempt) := by
  intro fuel
  induction fuel with
  | zero =>
    intro attempt h
    simp [init_loop, failTrace]
  | succ n ih =>
    intro attempt h
    have ha : attempt < max_retries := by omega
    have hcf := hfail attempt ha
    cases ho : oracle attempt with
    | ok => rw [ho] at hcf; simp [NetOutcome.isConnErr] at hcf
    | otherErr m => rw [ho] at hcf; simp [NetOutcome.isConnErr] at hcf
    | connErr m =>
      simp only [init_loop, failTrace, ho]
      by_cases hlt : attempt < max_retries - 1
      · rw [if_pos hlt, if_pos hlt]
        have ihr := ih (attempt + 1) (by omega)
        simp [ihr]
      · rw [if_neg hlt, if_neg hlt]

/-- When attempts before `k` fail with caught connectivity-class errors and
attempt `k` ends the loop (success or uncaught exception), the loop stops
at attempt `k` with the corresponding outcome and trace. -/
lemma init_loop_prefix (oracle : Nat → NetOutcome) (max_retries k : Nat)
    (res : InitOutcome) (hres : finalOutcome (oracle k) = some res)
    (hfail : ∀ i, i < k → (oracle i).isConnErr = true) :
    ∀ fuelT attempt fuelI, attempt + fuelT = k →
      attempt + fuelI = max_retries → k < max_retries →
      init_loop oracle max_retries fuelI attempt =
        (res, okTraceAux k fuelT attempt) := by
  intro fuelT
  induction fuelT with
  | zero =>
    intro attempt fuelI hT hI hk
    obtain rfl : attempt = k := by omega
    cases fuelI with
    | zero => omega
    | succ f =>
      simp only [init_loop, okTraceAux]
      cases ho : oracle attempt with
      | ok =>
        rw [ho] at hres
        simp only [finalOutcome, Option.some.injEq] at hres
        subst hres
        rfl
      | connErr m =>
        rw [ho] at hres
        simp [finalOutcome] at hres
      | otherErr m =>
        rw [ho] at hres
        simp only [finalOutcome, Option.some.injEq] at hres
        subst hres
        rfl
  | succ n ih =>
    intro attempt fuelI hT hI hk
    have hak : attempt < k := by omega
    have hcf := hfail attempt hak
    cases ho : oracle attempt with
    | ok => rw [ho] at hcf; simp [NetOutcome.isConnErr] at hcf
    | otherErr m => rw [ho] at hcf; simp [NetOutcome.isConnErr] at hcf
    | connErr m =>
      cases fuelI with
      | zero => omega
      | succ f =>
        simp only [init_loop, okTraceAux, ho]
        rw [if_pos (show attempt < max_retries - 1 by omega), if_pos hak]
        have ihr := ih (attempt + 1) f (by omega) (by omega) hk
        simp [ihr]

/-- The stop-at-`k` trace holds `fuel + 1` attempts and `fuel` sleeps when
started `fuel` attempts before `k`. -/
lemma okTraceAux_counts (k : Nat) :
    ∀ fuel attempt, attempt + fuel = k →
      countTries (okTraceAux k fuel attempt) = fuel + 1 ∧
      countSleeps (okTraceAux k fuel attempt) = fuel := by
  intro fuel
  induction fuel with
  | zero =>
    intro attempt h
    simp [okTraceAux, countTries, countSleeps]
  | succ n ih =>
    intro attempt h
    have ha : attempt < k := by omega
    obtain ⟨h1, h2⟩ := ih (attempt + 1) (by omega)
    simp only [okTraceAux, if_pos ha, countTries, countSleeps]
    omega

/-- Serving any single request leaves both handles untouched. -/
lemma stepRequest_preserves (s : AppState) (req : Request) :
    (stepRequest s req).r = s.r ∧ (stepRequest s req).pg = s.pg := by
  cases req <;> exact ⟨rfl, rfl⟩

/-- Serving any sequence of requests leaves both handles untouched. -/
lemma runRequests_preserves (s : AppState) (reqs : List Request) :
    (runRequests s reqs).r = s.r ∧ (runRequests s reqs).pg = s.pg := by
  induction reqs generalizing s with
  | nil => exact ⟨rfl, rfl⟩
  | cons req rest ih =>
    have h1 := stepRequest_preserves s req
    have h2 := ih (stepRequest s req)
    exact ⟨h2.1.trans h1.1, h2.2.trans h1.2⟩

/-- The root payload reports each handle's presence and the fixed endpoint
list. -/
lemma root_reflects (r pg : Option Unit) :
    ∃ body, root r pg = .ok body ∧
      (body.services.redis = "available" ↔ r.isSome = true) ∧
      (body.services.redis = "unavailable" ↔ r = none) ∧
      (body.services.postgresql = "available" ↔ pg.isSome = true) ∧
      (body.services.postgresql = "unavailable" ↔ pg = none) ∧
      body.endpoints = { health_check := "/health",
                         cache_get := "/cache/\x7bkey\x7d",
                         cache_set := "/cache/\x7bkey\x7d/\x7bvalue\x7d",
                         db_test := "/db" } := by
  cases r with
  | none =>
    cases pg with
    | none =>
      exact ⟨_, rfl, iff_of_false (by decide) (by decide),
        iff_of_true rfl rfl, iff_of_false (by decide) (by decide),
        iff_of_true rfl rfl, rfl⟩
    | some v =>
      cases v
      exact ⟨_, rfl, iff_of_false (by decide) (by decide),
        iff_of_true rfl rfl, iff_of_true rfl rfl,
        iff_of_false (by decide) (by decide), rfl⟩
  | some u =>
    cases u
    cases pg with
    | none =>
      exact ⟨_, rfl, iff_of_true rfl rfl,
        iff_of_false (by decide) (by decide),
        iff_of_false (by decide) (by decide), iff_of_true rfl rfl, rfl⟩
    | some v =>
      cases v
      exact ⟨_, rfl, iff_of_true rfl rfl,
        iff_of_false (by decide) (by decide), iff_of_true rfl rfl,
        iff_of_false (by decide) (by decide), rfl⟩

/-- The handle fields of the state `startup` serves from record exactly
whether each initialization returned a live handle. -/
lemma startup_handles (ro po : Nat → NetOutcome) (store : RedisStore)
    (version : String) (s : AppState)
    (hs : startup ro po store version = some s) :
    (s.r = some () ↔ (init_redis ro).1 = InitOutcome.handle) ∧
    (s.pg = some () ↔ (init_postgres po).1 = InitOutcome.handle) := by
  cases h1 : (init_redis ro).1 <;> cases h2 : (init_postgres po).1 <;>
    simp only [startup, h1, h2] at hs
  all_goals try exact Option.noConfusion hs
  all_goals injection hs with h3
  all_goals subst h3
  all_goals constructor <;> simp [h1, h2]

/-- Claim C1: with the cache handle available and no connectivity-class
error raised by the store, `cache_set key value` followed by
`cache_get key` returns that value, and two sets on the same key with
different values followed by a get return the latest value (unconditional
overwrite). -/
theorem set_then_get (key value value1 value2 : String) (store : RedisStore) :
    cache_get (some ()) (cache_set (some ()) store NetOutcome.ok key value).2
        NetOutcome.ok key = .ok { key := key, value := value } ∧
    cache_get (some ())
        (cache_set (some ())
          (cache_set (some ()) store NetOutcome.ok key value1).2
          NetOutcome.ok key value2).2
        NetOutcome.ok key = .ok { key := key, value := value2 } := by
  constructor <;> simp [cache_get, cache_set, redis_set]

/-- Claim C2: `health_check` never fails (it always returns a 200 body),
and for every combination of handle states and call outcomes — hence for
all four combinations of the two sub-statuses, each of which is always
`healthy` or `unhealthy` — the aggregate `status` field is `healthy`
exactly when both sub-statuses are `healthy`, and `degraded` otherwise. -/
theorem health_aggregate (r pg : Option Unit) (pingNet queryNet : NetOutcome)
    (rh ph : String) :
    ∃ body, (health_check r pg pingNet queryNet rh ph).1 = .ok body ∧
      (body.status = "healthy" ↔
        body.redis = "healthy" ∧ body.postgresql = "healthy") ∧
      (body.status = "degraded" ↔
        ¬(body.redis = "healthy" ∧ body.postgresql = "healthy")) ∧
      (body.redis = "healthy" ∨ body.redis = "unhealthy") ∧
      (body.postgresql = "healthy" ∨ body.postgresql = "unhealthy") := by
  exact ⟨_, rfl, agg_healthy_iff (depStatus r pingNet) (depStatus pg queryNet),
    agg_degraded_iff (depStatus r pingNet) (depStatus pg queryNet),
    depStatus_cases r pingNet, depStatus_cases pg queryNet⟩

/-- Claim C3: when the cache handle is the `None` sentinel, `cache_get` and
`cache_set` both answer 503 ServiceUnavailable for every key, value, store
content and call outcome — never 404, never a value — and the store is left
untouched. -/
theorem unavailable_cache (store : RedisStore) (net : NetOutcome)
    (key value : String) :
    cache_get none store net key = .httpError 503 "Redis service unavailable" ∧
    (cache_set none store net key value).1 =
      .httpError 503 "Redis service unavailable" ∧
    (cache_set none store net key value).2 = store :=
  ⟨rfl, rfl, rfl⟩

/-- Claim C4: with the cache handle available, `cache_get key` answers 503
with the error detail when the store call raises a connectivity-class
error, 404 when the store reports no value for `key` — in particular for
every key of a store with no keys written — and the `{key, value}` body
when the store holds a value; the 404 is raised inside the `try` block but
is not converted into a 503. -/
theorem cache_get_trichotomy (store : RedisStore) (key : String) :
    (∀ m, cache_get (some ()) store (NetOutcome.connErr m) key =
      .httpError 503 ("Redis error: " ++ m)) ∧
    (store key = none → cache_get (some ()) store NetOutcome.ok key =
      .httpError 404 ("Key \x27" ++ key ++ "\x27 not found")) ∧
    (∀ v, store key = some v → cache_get (some ()) store NetOutcome.ok key =
      .ok { key := key, value := v }) ∧
    (∀ k2, cache_get (some ()) emptyStore NetOutcome.ok k2 =
      .httpError 404 ("Key \x27" ++ k2 ++ "\x27 not found")) := by
  refine ⟨fun m => rfl, fun h => ?_, fun v h => ?_, fun k2 => rfl⟩ <;>
    simp [cache_get, h]

/-- Claim C4, witness: the trichotomy evaluated at concrete stores. -/
theorem cache_get_trichotomy_witness :
    cache_get (some ()) (redis_set emptyStore "a" "b") NetOutcome.ok "a" =
      .ok { key := "a", value := "b" } ∧
    cache_get (some ()) emptyStore NetOutcome.ok "a" =
      .httpError 404 ("Key \x27" ++ "a" ++ "\x27 not found") ∧
    cache_get (some ()) emptyStore (NetOutcome.connErr "refused") "a" =
      .httpError 503 ("Redis error: " ++ "refused") :=
  ⟨(cache_get_trichotomy (redis_set emptyStore "a" "b") "a").2.2.1 "b" rfl,
   (cache_get_trichotomy emptyStore "a").2.1 rfl,
   (cache_get_trichotomy emptyStore "a").1 "refused"⟩

/-- Claim C9: when a handle is the `None` sentinel, `health_check` reports
that dependency `unhealthy` and issues no re-check call to it, while the
other dependency is still probed (when its handle is present) and the
handler still returns a 200 body. -/
theorem health_skips_unavailable (pg : Option Unit)
    (pingNet queryNet : NetOutcome) (rh ph : String) :
    Probe.redisPing ∉ (health_check none pg pingNet queryNet rh ph).2 ∧
    (∃ body, (health_check none pg pingNet queryNet rh ph).1 = .ok body ∧
      body.redis = "unhealthy") ∧
    (pg = some () →
      Probe.pgQuery ∈ (health_check none pg pingNet queryNet rh ph).2) ∧
    (∀ r2 : Option Unit,
      Probe.pgQuery ∉ (health_check r2 none pingNet queryNet rh ph).2) ∧
    (∃ body2, (health_check (some ()) none pingNet queryNet rh ph).1 =
        .ok body2 ∧ body2.postgresql = "unhealthy" ∧
      Probe.redisPing ∈ (health_check (some ()) none pingNet queryNet rh ph).2) := by
  refine ⟨?_, ⟨_, rfl, rfl⟩, ?_, ?_, ⟨_, rfl, rfl, ?_⟩⟩
  · cases pg
    · show Probe.redisPing ∉ ([] : List Probe)
      decide
    · show Probe.redisPing ∉ [Probe.pgQuery]
      decide
  · rintro rfl
    show Probe.pgQuery ∈ [Probe.pgQuery]
    decide
  · intro r2
    cases r2
    · show Probe.pgQuery ∉ ([] : List Probe)
      decide
    · show Probe.pgQuery ∉ [Probe.redisPing]
      decide
  · show Probe.redisPing ∈ [Probe.redisPing]
    decide

/-- Claim C9, witness: cache handle absent, database handle present. -/
theorem health_skips_unavailable_witness :
    Probe.pgQuery ∈
      (health_check none (some ()) NetOutcome.ok NetOutcome.ok "rh" "ph").2 :=
  (health_skips_unavailable (some ()) NetOutcome.ok NetOutcome.ok
    "rh" "ph").2.2.1 rfl

/-- Claim C10: a successful `cache_set key value` answers exactly
`{status := "ok", key, value}` with the inputs echoed back, and the
response does not depend on the store's prior contents. -/
theorem set_response (key value : String) (store store2 : RedisStore) :
    (cache_set (some ()) store NetOutcome.ok key value).1 =
      .ok { status := "ok", key := key, value := value } ∧
    (cache_set (some ()) store NetOutcome.ok key value).1 =
      (cache_set (some ()) store2 NetOutcome.ok key value).1 :=
  ⟨rfl, rfl⟩

/-- Claim C5: initialization attempts the connect-and-verify round-trip at
most 10 times; every sleep is the fixed 2-second delay, taken after each
caught failed attempt except the final one; a successful attempt returns
the handle at once with no further attempts; and 10 connectivity-class
failures yield the `None` sentinel with no sleep after the final attempt —
for `init_redis` and `init_postgres` alike. -/
theorem init_retry_policy (oracle : Nat → NetOutcome) :
    countTries (init_redis oracle).2 ≤ 10 ∧
    init_postgres oracle = init_redis oracle ∧
    (∀ d, InitStep.sleep d ∈ (init_redis oracle).2 → d = 2) ∧
    (∀ k, k < 10 → (∀ i, i < k → (oracle i).isConnErr = true) →
      oracle k = NetOutcome.ok →
      init_redis oracle = (InitOutcome.handle, okTrace k) ∧
      countTries (okTrace k) = k + 1 ∧ countSleeps (okTrace k) = k) ∧
    ((∀ i, i < 10 → (oracle i).isConnErr = true) →
      init_redis oracle = (InitOutcome.unavailable, failTrace 10 10 0)) ∧
    failTrace 10 10 0 =
      [.tryConnect 0, .sleep 2, .tryConnect 1, .sleep 2, .tryConnect 2,
       .sleep 2, .tryConnect 3, .sleep 2, .tryConnect 4, .sleep 2,
       .tryConnect 5, .sleep 2, .tryConnect 6, .sleep 2, .tryConnect 7,
       .sleep 2, .tryConnect 8, .sleep 2, .tryConnect 9] := by
  refine ⟨countTries_init_loop oracle 10 10 0, rfl,
    fun d hd => init_loop_sleep_two oracle 10 10 0 d hd,
    fun k hk hfail hok => ?_,
    fun hfail => init_loop_all_fail oracle 10 hfail 10 0 rfl, by decide⟩
  have h1 := init_loop_prefix oracle 10 k .handle (by rw [hok]; rfl) hfail
    k 0 10 (by omega) rfl hk
  have h2 := okTraceAux_counts k k 0 (by omega)
  exact ⟨h1, h2.1, h2.2⟩

/-- Claim C5, witness: three connection refusals then success, and ten
straight connection refusals. -/
theorem init_retry_policy_witness :
    init_redis (fun i => if i < 3 then NetOutcome.connErr "refused"
                         else NetOutcome.ok)
      = (InitOutcome.handle, okTrace 3) ∧
    init_redis (fun _ => NetOutcome.connErr "refused")
      = (InitOutcome.unavailable, failTrace 10 10 0) :=
  ⟨((init_retry_policy _).2.2.2.1 3 (by omega)
      (fun i hi => by
        show (if i < 3 then NetOutcome.connErr "refused"
              else NetOutcome.ok).isConnErr = true
        rw [if_pos hi]
        rfl)
      (by show (if 3 < 3 then NetOutcome.connErr "refused"
                else NetOutcome.ok) = NetOutcome.ok
          rw [if_neg (by omega)])).1,
   (init_retry_policy _).2.2.2.2.1 (fun i _ => rfl)⟩

/-- Claim C6: `db_test` answers the version string the external server
returned together with status `success` when the handle is present and the
query round-trip succeeds — a non-empty string whenever the server's
version string is non-empty — and answers 503 ServiceUnavailable when the
handle is the `None` sentinel or the query raises a connectivity-class
error. -/
theorem db_probe (version : String) (net : NetOutcome) (hv : version ≠ "") :
    db_test (some ()) version NetOutcome.ok =
      .ok { postgres_version := version, status := "success" } ∧
    (∃ b, db_test (some ()) version NetOutcome.ok = .ok b ∧
      b.postgres_version ≠ "" ∧ b.status = "success") ∧
    db_test none version net =
      .httpError 503 "PostgreSQL service unavailable" ∧
    (∀ m, db_test (some ()) version (NetOutcome.connErr m) =
      .httpError 503 ("PostgreSQL error: " ++ m)) :=
  ⟨rfl, ⟨_, rfl, hv, rfl⟩, rfl, fun _ => rfl⟩

/-- Claim C6, witness: a concrete version string. -/
theorem db_probe_witness :
    db_test (some ()) "PostgreSQL 16.4" NetOutcome.ok =
      .ok { postgres_version := "PostgreSQL 16.4", status := "success" } :=
  (db_probe "PostgreSQL 16.4" NetOutcome.ok (by decide)).1

/-- Claim C7, counterexample: an error outside the caught
connectivity classes on the first attempt does not take the retry path —
the loop neither sleeps, nor retries, nor returns the `None` sentinel; the
exception propagates out of initialization at once. -/
theorem init_other_error_cex :
    (init_redis (fun _ => NetOutcome.otherErr "boom")).1 =
      InitOutcome.raised "boom" ∧
    (init_redis (fun _ => NetOutcome.otherErr "boom")).1 ≠
      InitOutcome.unavailable ∧
    countTries (init_redis (fun _ => NetOutcome.otherErr "boom")).2 = 1 ∧
    countSleeps (init_redis (fun _ => NetOutcome.otherErr "boom")).2 = 0 := by
  decide

/-- Claim C7 as amended: only errors of the caught connectivity classes
take the warning-sleep-retry path; an error of any other class propagates
out of initialization on the attempt that raised it, with no sleep, no
further attempt, and no `Unavailable` sentinel. -/
theorem other_error_propagates (oracle : Nat → NetOutcome) (k : Nat)
    (m : String) (hk : k < 10)
    (hfail : ∀ i, i < k → (oracle i).isConnErr = true)
    (hother : oracle k = NetOutcome.otherErr m) :
    init_redis oracle = (InitOutcome.raised m, okTrace k) ∧
    init_postgres oracle = (InitOutcome.raised m, okTrace k) ∧
    countTries (okTrace k) = k + 1 ∧ countSleeps (okTrace k) = k := by
  have h1 := init_loop_prefix oracle 10 k (.raised m) (by rw [hother]; rfl)
    hfail k 0 10 (by omega) rfl hk
  have h2 := okTraceAux_counts k k 0 (by omega)
  exact ⟨h1, h1, h2.1, h2.2⟩

/-- Claim C7 (amended), witness: the error on the very first attempt. -/
theorem other_error_propagates_witness :
    init_redis (fun _ => NetOutcome.otherErr "boom") =
      (InitOutcome.raised "boom", okTrace 0) :=
  (other_error_propagates (fun _ => NetOutcome.otherErr "boom") 0 "boom"
    (by omega) (fun i hi => absurd hi (Nat.not_lt_zero i)) rfl).1

/-- Claim C8: the two handles are fixed by `startup` — they record exactly
the outcome of the one-time acquisitions — no sequence of served requests
ever changes either handle, and the root payload never fails, is unchanged
across all requests, and reports each dependency `available`/`unavailable`
from the handle alone together with the fixed endpoint list. -/
theorem handles_immutable_root_static (ro po : Nat → NetOutcome)
    (store : RedisStore) (version : String) (s : AppState)
    (hs : startup ro po store version = some s) :
    (s.r = some () ↔ (init_redis ro).1 = InitOutcome.handle) ∧
    (s.pg = some () ↔ (init_postgres po).1 = InitOutcome.handle) ∧
    (∀ reqs, (runRequests s reqs).r = s.r ∧ (runRequests s reqs).pg = s.pg ∧
      root (runRequests s reqs).r (runRequests s reqs).pg = root s.r s.pg) ∧
    (∃ body, root s.r s.pg = .ok body ∧
      (body.services.redis = "available" ↔ s.r.isSome = true) ∧
      (body.services.redis = "unavailable" ↔ s.r = none) ∧
      (body.services.postgresql = "available" ↔ s.pg.isSome = true) ∧
      (body.services.postgresql = "unavailable" ↔ s.pg = none) ∧
      body.endpoints = { health_check := "/health",
                         cache_get := "/cache/\x7bkey\x7d",
                         cache_set := "/cache/\x7bkey\x7d/\x7bvalue\x7d",
                         db_test := "/db" }) := by
  obtain ⟨hr, hpg⟩ := startup_handles ro po store version s hs
  exact ⟨hr, hpg,
    fun reqs => ⟨(runRequests_preserves s reqs).1,
      (runRequests_preserves s reqs).2,
      by rw [(runRequests_preserves s reqs).1,
             (runRequests_preserves s reqs).2]⟩,
    root_reflects s.r s.pg⟩

/-- Claim C8, witness: startup with both dependencies reachable at once. -/
theorem handles_immutable_root_static_witness :
    (AppState.mk (some ()) (some ()) emptyStore "v").r = some () ↔
      (init_redis (fun _ => NetOutcome.ok)).1 = InitOutcome.handle :=
  (handles_immutable_root_static (fun _ => NetOutcome.ok)
    (fun _ => NetOutcome.ok) emptyStore "v"
    (AppState.mk (some ()) (some ()) emptyStore "v") rfl).1

end Shim
